import Mathlib

/-!
Shallow embedding of `top_shelf.py`: a minimal algebraic-container library
(the `Identity` monad with `unit` / `map` / `apply` / `bind`), a sampling
based equality `Identity.__eq__`, and the memoizing NaN-scrubbing wrapper
`_modify`.

Modelling decisions:
* Python scalars that occur in the program are embedded as the inductive
  `Scalar`: `int`, `str`, `bool`, `None`, `float` and `complex`.  A float is
  tracked only as "NaN" or an exact rational (`PyFloat`): the program never
  computes with floats, it only tests them for NaN with `math.isnan` and
  compares them with `==`.
* Functions are embedded as `Scalar → Scalar`, following the source's own
  annotation `RegularFunction = Callable[[Scalar], Scalar]`.
* A container payload (`Value`) is a scalar, a function, or another
  `Identity` instance (the latter is what `isinstance(value, cls)` tests in
  `Identity.unit`, and what the free function `unit` produces when handed an
  existing container).
* The random draw `random.randrange(0, 100)` inside `Identity.__eq__` is
  surfaced as an explicit oracle argument `i`; theorems that speak about the
  sampled comparison carry the hypothesis `i < 100`.
* Python object identity (which object `is` which) is modelled separately in
  namespace `Alloc` by an allocation counter: every execution of the
  dataclass constructor `Identity(value)` returns an object stamped with a
  fresh address.
-/

namespace TopShelf

/-- A Python float as the program observes it: either NaN or an exact
(rational) numeric value.  The program never does float arithmetic; it only
asks `math.isnan` and compares with `==`. -/
inductive PyFloat where
  | nan : PyFloat
  | val : ℚ → PyFloat
deriving DecidableEq

/-- `math.isnan` on a float. -/
def PyFloat.isnan : PyFloat → Bool
  | .nan => true
  | .val _ => false

/-- The scalar values the program manipulates: the source annotates
`Scalar = Union[AnyStr, int, bool]`, and at runtime the harness additionally
produces floats, `None` (the "undefined" sentinel) and inspects complex
numbers in `_modify`. -/
inductive Scalar where
  | int : ℤ → Scalar
  | str : String → Scalar
  | bool : Bool → Scalar
  | none : Scalar
  | real : PyFloat → Scalar
  | cplx : PyFloat → PyFloat → Scalar
deriving DecidableEq

/-- The view of a scalar as a member of Python's `numbers.Complex` tower:
`int`, `bool`, `float` and `complex` all are (`isinstance(v, Complex)`), with
`.real` and `.imag` components; `str` and `None` are not.  `True`/`False`
behave as `1`/`0`. -/
def Scalar.toComplexParts : Scalar → Option (PyFloat × PyFloat)
  | .int n => some (.val (n : ℚ), .val 0)
  | .bool b => some (.val (if b then 1 else 0), .val 0)
  | .real x => some (x, .val 0)
  | .cplx re im => some (re, im)
  | _ => Option.none

/-- Python `==` between two float components: NaN compares unequal to
everything (itself included); otherwise exact numeric equality. -/
def PyFloat.numEq : PyFloat → PyFloat → Bool
  | .val a, .val b => a == b
  | _, _ => false

/-- Python `==` between two scalars: numbers compare across `int` / `bool` /
`float` / `complex` by numeric value (with NaN unequal to everything),
strings compare as strings, `None == None` is `True`, and any remaining
cross-kind comparison is `False`. -/
def pyEqScalar (a b : Scalar) : Bool :=
  match a.toComplexParts, b.toComplexParts with
  | some (ra, ia), some (rb, ib) => ra.numEq rb && ia.numEq ib
  | _, _ =>
    match a, b with
    | .str s, .str t => s == t
    | .none, .none => true
    | _, _ => false

mutual
/-- A container payload: a scalar, a unary function (the source's
`RegularFunction`), or an already-wrapped `Identity` instance. -/
inductive Value where
  | scalar : Scalar → Value
  | fn : (Scalar → Scalar) → Value
  | wrapped : Identity → Value

/-- The `Identity` dataclass: a single field `value`. -/
inductive Identity where
  | mk : Value → Identity
end

/-- Field access `monad.value`. -/
def Identity.value : Identity → Value
  | .mk v => v

/-- Python `callable(v)`: true exactly for function payloads (`Identity`
instances define no `__call__`, scalars are not callable). -/
def Value.callable : Value → Bool
  | .fn _ => true
  | _ => false

/-- The module-level free function `unit(M, value) = M(value)`, instantiated
at the only container variant `Identity`: it always runs the constructor,
with no `isinstance` check. -/
def unit (value : Value) : Identity :=
  Identity.mk value

/-- The classmethod `Identity.unit`:
`unit(cls, value) if not isinstance(value, cls) else value`. -/
def Identity.unit : Value → Identity
  | .wrapped m => m
  | v => TopShelf.unit v

/-- The source's `identity` function, at the type it is used at. -/
def identity (x : Scalar) : Scalar := x

/-- `map(monad, function)`:
`monad.unit(function(monad.value) if not callable(monad.value) else lambda x: monad.value(function(x)))`.
A `wrapped` payload would be passed to `function` itself, which is outside
`RegularFunction`'s declared domain `Callable[[Scalar], Scalar]`; no claim
exercises that case and the embedding rewraps the payload unchanged there. -/
def map (monad : Identity) (function : Scalar → Scalar) : Identity :=
  match monad.value with
  | .scalar s => Identity.unit (.scalar (function s))
  | .fn h => Identity.unit (.fn (fun x => h (function x)))
  | .wrapped m => Identity.mk (.wrapped m)

/-- `apply(lifted_function, lifted) = map(lifted, lifted_function.value)`.
When `lifted_function`'s payload is not callable the call is a contract
violation (`map` would apply a non-function), modelled as `none`. -/
def apply (lifted_function lifted : Identity) : Option Identity :=
  match lifted_function.value with
  | .fn f => some (map lifted f)
  | _ => Option.none

/-- `bind(monad, function) = function(monad.value)`: the continuation's
result is returned as-is, with no rewrapping. -/
def bind (monad : Identity) (function : Value → Identity) : Identity :=
  function monad.value

/-- `Identity.__eq__` with the draw `i = random.randrange(0, 100)` surfaced
as an oracle argument (each nested comparison reuses the same oracle).
If both payloads are callable, compare the sampled outputs with Python `==`;
otherwise fall back to `self.value == other.value`: scalar payloads compare
with Python `==`, two wrapped containers recurse, and a function payload
against a scalar payload compares `False` (Python falls back to object
identity there).  A comparison mixing a wrapped container with a non
container payload raises `AttributeError` in the source; no claim exercises
it and the embedding returns `false` there. -/
def Identity.beq (i : ℕ) : Identity → Identity → Bool
  | .mk (.fn h₁), .mk (.fn h₂) => pyEqScalar (h₁ (.int (i : ℤ))) (h₂ (.int (i : ℤ)))
  | .mk (.scalar a), .mk (.scalar b) => pyEqScalar a b
  | .mk (.wrapped a), .mk (.wrapped b) => Identity.beq i a b
  | _, _ => false

/-- Invoke a container's payload on an input (only meaningful when the
payload is a function): `monad.value(x)`. -/
def Identity.invokePayload (m : Identity) (x : Scalar) : Option Scalar :=
  match m.value with
  | .fn h => some (h x)
  | _ => Option.none

/-- How many times an `Identity` is wrapped directly inside `Identity`
instances; used to show a freshly built double wrap is never equal (as a
value) to the container it wraps. -/
def Identity.unwrapDepth : Identity → ℕ
  | .mk (.wrapped m) => m.unwrapDepth + 1
  | _ => 0

/-- The NaN test `_modify` performs on the computed result: a complex number
with NaN imaginary or real component, or a real number that is NaN (`int`,
`bool`, `str` and `None` are never NaN). -/
def Scalar.nanPayload : Scalar → Bool
  | .cplx re im => re.isnan || im.isnan
  | .real x => x.isnan
  | _ => false

/-- `_modify(function)`'s inner body (its `lru_cache` is modelled in
namespace `Alloc`): compute `result = pure(function(x))` with
`pure = Identity.unit`; if `result.value` is a `numbers.Complex` whose
imaginary or real part is NaN, return `pure(None)`; otherwise return
`result`.  (The source's `elif isinstance(result.value, Number)` branch is
unreachable: every `numbers.Number` the program can produce is a
`numbers.Complex`.) -/
def _modify (function : Scalar → Scalar) (x : Scalar) : Identity :=
  let result := Identity.unit (.scalar (function x))
  match result.value with
  | .scalar s =>
    match s.toComplexParts with
    | some (re, im) =>
      if im.isnan || re.isnan then Identity.unit (.scalar .none) else result
    | Option.none => result
  | _ => result

/-- `λx. x + 1` (the original function of the spec's concrete scenario), on
integer inputs; only the integer case is ever exercised. -/
def add1 : Scalar → Scalar
  | .int n => .int (n + 1)
  | s => s

/-- `λy. y * 2` (the mapped function of the spec's concrete scenario), on
integer inputs; only the integer case is ever exercised. -/
def dbl : Scalar → Scalar
  | .int n => .int (n * 2)
  | s => s

namespace Alloc

/-!
Allocation-aware model of the same operations, used for the claims about
Python *object identity* (fresh instances, memoized identical outputs).
Every execution of the dataclass constructor `Identity(value)` allocates a
new object, stamped with the current value `σ` of an allocation counter;
two objects are the same Python object exactly when they carry the same
address.  Payloads here are scalars or functions (the source's `Value`
domain); the operations below never construct wrapped-container payloads.
-/

/-- A container payload in the allocation model. -/
inductive AValue where
  | scalar : Scalar → AValue
  | fn : (Scalar → Scalar) → AValue

/-- A concrete `Identity` object: its address and its `value` field. -/
structure Obj where
  addr : ℕ
  value : AValue

/-- Executing the dataclass constructor `Identity(value)`: allocates a fresh
object at the current counter and advances the counter. -/
def construct (v : AValue) (σ : ℕ) : Obj × ℕ :=
  (⟨σ, v⟩, σ + 1)

/-- The free function `unit(M, value) = M(value)` in the allocation model. -/
def unit (v : AValue) (σ : ℕ) : Obj × ℕ :=
  construct v σ

/-- The classmethod `Identity.unit` in the allocation model: its `Any`
argument is either a plain value (left) or an existing `Identity` object
(right); an existing instance is returned unchanged, without allocating. -/
def Identity.unit : AValue ⊕ Obj → ℕ → Obj × ℕ
  | Sum.inl v, σ => TopShelf.Alloc.unit v σ
  | Sum.inr m, σ => (m, σ)

/-- `map` in the allocation model: computes the new payload (an applied
scalar or a composed function — never an existing instance, by
`RegularFunction`'s type) and hands it to `monad.unit`, which allocates. -/
def map (monad : Obj) (function : Scalar → Scalar) (σ : ℕ) : Obj × ℕ :=
  Identity.unit
    (Sum.inl (match monad.value with
      | .scalar s => AValue.scalar (function s)
      | .fn h => AValue.fn (fun x => h (function x)))) σ

/-- `apply` in the allocation model: `map(lifted, lifted_function.value)`;
a non-callable payload is a contract violation, modelled as `none`. -/
def apply (lifted_function lifted : Obj) (σ : ℕ) : Option (Obj × ℕ) :=
  match lifted_function.value with
  | .fn f => some (map lifted f σ)
  | _ => Option.none

/-- `bind` in the allocation model: `function(monad.value)` returned as-is;
the continuation may allocate, or may return an already existing object. -/
def bind (monad : Obj) (function : AValue → ℕ → Obj × ℕ) (σ : ℕ) : Obj × ℕ :=
  function monad.value σ

/-- Association-list lookup for the `lru_cache` inside `_modify`. -/
def cacheLookup (x : Scalar) : List (Scalar × Obj) → Option Obj
  | [] => Option.none
  | (k, r) :: rest => if k = x then some r else cacheLookup x rest

/-- The body of `_modify`'s inner `f` in the allocation model (a cache
miss): `result = pure(function(x))` allocates; if the result's payload is a
`numbers.Complex` with a NaN imaginary or real part, `pure(None)` allocates
again and is returned; otherwise `result` is returned. -/
def modifyBody (function : Scalar → Scalar) (x : Scalar) (σ : ℕ) : Obj × ℕ :=
  let result := Identity.unit (Sum.inl (AValue.scalar (function x))) σ
  match result.1.value with
  | .scalar s =>
    match s.toComplexParts with
    | some (re, im) =>
      if im.isnan || re.isnan
      then Identity.unit (Sum.inl (AValue.scalar .none)) result.2
      else result
    | Option.none => result
  | _ => result

/-- One call of `_modify`'s inner `f`, with its `functools.lru_cache`
modelled as an explicit association list: a hit returns the previously
produced object itself; a miss runs the body and records the new object. -/
def modifyCall (function : Scalar → Scalar) (cache : List (Scalar × Obj))
    (x : Scalar) (σ : ℕ) : Obj × List (Scalar × Obj) × ℕ :=
  match cacheLookup x cache with
  | some r => (r, cache, σ)
  | Option.none =>
    let rσ := modifyBody function x σ
    (rσ.1, (x, rσ.1) :: cache, rσ.2)

end Alloc

/-- Claim C1 counterexample: the claim predicts that the payload of
`map(Identity(λx. x + 1), λy. y * 2)` yields `8` on input `3` (run the
original function first, then the mapped one); the code composes the other
way round — it builds `λx. original(mapped(x))` — and yields `7`. -/
theorem C1_counterexample :
    (TopShelf.map (Identity.mk (.fn add1)) dbl).invokePayload (.int 3) = some (.int 7)
  ∧ (TopShelf.map (Identity.mk (.fn add1)) dbl).invokePayload (.int 3) ≠ some (.int 8) :=
  ⟨by decide, by decide⟩

/-- Claim C1 (amended): for every container wrapping a function `h` and every
unary function `f`, `map` returns a container wrapping the new function
`fun x => h (f x)`: it first applies `f` to the input and then runs the
original `h` on `f`'s result; in particular, invoking the payload of
`map(Identity(λx. x + 1), λy. y * 2)` on input `3` yields `7`. -/
theorem C1_amended_thm :
    (∀ (h f : Scalar → Scalar),
      (TopShelf.map (Identity.mk (.fn h)) f).value = Value.fn (fun x => h (f x)))
  ∧ (∀ (h f : Scalar → Scalar) (x : Scalar),
      (TopShelf.map (Identity.mk (.fn h)) f).invokePayload x = some (h (f x)))
  ∧ (TopShelf.map (Identity.mk (.fn add1)) dbl).invokePayload (.int 3) = some (.int 7) :=
  ⟨fun h f => rfl, fun h f x => rfl, by decide⟩

/-- Claim C2 counterexample: `bind` does not always return a container
distinct from its argument: with the continuation `fun _ => m` (well-typed
for `bind`, whose function argument returns a container), `bind m f` returns
the input object `m` itself — same address `0`, i.e. the very same Python
object, not a fresh instance. -/
theorem C2_counterexample :
    (Alloc.bind ⟨0, .scalar (.int 5)⟩
        (fun _ σ => (⟨0, .scalar (.int 5)⟩, σ)) 1).1
      = (⟨0, .scalar (.int 5)⟩ : Alloc.Obj) :=
  rfl

/-- Claim C2 (amended): `map` and `apply` always return a freshly allocated
container distinct from their container argument(s); `bind` returns exactly
what its continuation returns, which need not be fresh and may be the input
container itself. -/
theorem C2_amended_thm :
    (∀ (m : Alloc.Obj) (f : Scalar → Scalar) (σ : ℕ), m.addr < σ →
      (Alloc.map m f σ).1.addr = σ ∧ (Alloc.map m f σ).1.addr ≠ m.addr)
  ∧ (∀ (u v : Alloc.Obj) (σ : ℕ) (r : Alloc.Obj) (σ' : ℕ),
      u.addr < σ → v.addr < σ → Alloc.apply u v σ = some (r, σ') →
        r.addr = σ ∧ r.addr ≠ u.addr ∧ r.addr ≠ v.addr)
  ∧ (∀ (m : Alloc.Obj) (f : Alloc.AValue → ℕ → Alloc.Obj × ℕ) (σ : ℕ),
      Alloc.bind m f σ = f m.value σ) := by
  refine ⟨fun m f σ hm => ?_, fun u v σ r σ' hu hv happ => ?_, fun m f σ => rfl⟩
  · have h1 : (Alloc.map m f σ).1.addr = σ := rfl
    exact ⟨h1, by omega⟩
  · obtain ⟨ua, uv⟩ := u
    cases uv with
    | scalar s => exact absurd happ (by simp [Alloc.apply])
    | fn g =>
      have h : some (Alloc.map v g σ) = some (r, σ') := happ
      have h2 : Alloc.map v g σ = (r, σ') := by injection h
      have h3 : r.addr = σ := by
        have h4 : (Alloc.map v g σ).1.addr = σ := rfl
        rw [h2] at h4
        exact h4
      exact ⟨h3, by omega, by omega⟩

/-- Witness for the amended C2: at concrete inputs, `map` over the object at
address `0` (counter `1`) allocates the object at address `1`, and `apply` of
the function-payload object at address `0` to the object at address `1`
(counter `2`) allocates the object at address `2`, distinct from both. -/
theorem C2_amended_witness :
    ((Alloc.map ⟨0, .scalar (.int 5)⟩ identity 1).1.addr = 1
      ∧ (Alloc.map ⟨0, .scalar (.int 5)⟩ identity 1).1.addr ≠ 0)
  ∧ ((2 : ℕ) = 2 ∧ (2 : ℕ) ≠ 0 ∧ (2 : ℕ) ≠ 1) :=
  ⟨C2_amended_thm.1 ⟨0, .scalar (.int 5)⟩ identity 1 (by decide),
   C2_amended_thm.2.1 ⟨0, .fn identity⟩ ⟨1, .scalar (.int 5)⟩ 2
     ⟨2, .scalar (.int 5)⟩ 3 (by decide) (by decide) rfl⟩

/-- Claim C3: for two `Identity` containers compared with `==`, when both
payloads are callable the comparison samples one integer `i` from
`randrange(0, 100)` (surfaced as the oracle argument) and compares the two
outputs at `i` under Python `==`; otherwise it falls back to standard
equality of the payloads, under which two `None` sentinels compare equal. -/
theorem C3_thm : ∀ i : ℕ, i < 100 →
    (∀ h₁ h₂ : Scalar → Scalar,
      Identity.beq i (Identity.mk (.fn h₁)) (Identity.mk (.fn h₂)) =
        pyEqScalar (h₁ (.int (i : ℤ))) (h₂ (.int (i : ℤ))))
  ∧ (∀ a b : Scalar,
      Identity.beq i (Identity.mk (.scalar a)) (Identity.mk (.scalar b)) =
        pyEqScalar a b)
  ∧ Identity.beq i (Identity.mk (.scalar .none)) (Identity.mk (.scalar .none)) = true :=
  fun i _ => ⟨fun h₁ h₂ => rfl, fun a b => rfl, rfl⟩

/-- Witness for C3 at the concrete sample `7 < 100`: two `None` sentinel
payloads compare equal. -/
theorem C3_witness :
    Identity.beq 7 (Identity.mk (.scalar .none)) (Identity.mk (.scalar .none)) = true :=
  (C3_thm 7 (by decide)).2.2

/-- Claim C4: the determinized wrapper of `f` returns `pure(None)` exactly
when the unwrapped result of `pure(f(x))` is a complex number with NaN real
or imaginary component or a real number that is NaN, and returns
`pure(f(x))` unchanged otherwise; and (in the allocation model of its
`lru_cache`) a repeated call with the same input returns the identical
previously produced object. -/
theorem C4_thm :
    (∀ (function : Scalar → Scalar) (x : Scalar),
      _modify function x =
        if (function x).nanPayload
        then Identity.unit (.scalar .none)
        else Identity.unit (.scalar (function x)))
  ∧ (∀ (function : Scalar → Scalar) (cache : List (Scalar × Alloc.Obj))
      (x : Scalar) (σ : ℕ),
      (Alloc.modifyCall function (Alloc.modifyCall function cache x σ).2.1 x
          (Alloc.modifyCall function cache x σ).2.2).1
        = (Alloc.modifyCall function cache x σ).1) := by
  constructor
  · intro function x
    simp only [_modify]
    cases hfx : function x with
    | int n => rfl
    | str s => rfl
    | bool b => rfl
    | none => rfl
    | real fl => cases fl <;> rfl
    | cplx re im => cases re <;> cases im <;> rfl
  · intro function cache x σ
    cases hc : Alloc.cacheLookup x cache with
    | some r => simp [Alloc.modifyCall, hc]
    | none => simp [Alloc.modifyCall, Alloc.cacheLookup, hc]

/-- Claim C5: `Identity.unit` is idempotent on already-wrapped values — an
argument that is already an `Identity` instance is returned unchanged — and
otherwise (scalar or function argument) returns a new `Identity` wrapping
it; being total, it never fails. -/
theorem C5_thm :
    (∀ m : Identity, Identity.unit (Value.wrapped m) = m)
  ∧ (∀ s : Scalar, Identity.unit (Value.scalar s) = Identity.mk (Value.scalar s))
  ∧ (∀ f : Scalar → Scalar, Identity.unit (Value.fn f) = Identity.mk (Value.fn f)) :=
  ⟨fun m => rfl, fun s => rfl, fun f => rfl⟩

/-- Claim C6 counterexample: the functor identity law fails under the
container's own equality when the payload is the float NaN:
`map(Identity(nan), identity) == Identity(nan)` evaluates to `False`,
because Python's `nan == nan` is `False`. -/
theorem C6_counterexample :
    Identity.beq 0 (TopShelf.map (Identity.mk (.scalar (.real .nan))) identity)
      (Identity.mk (.scalar (.real .nan))) = false :=
  rfl

/-- Claim C6 (amended): the functor identity law `map(m, identity) == m`
holds for every container whose payload survives self-comparison — a scalar
payload that equals itself under Python `==` (i.e. carries no NaN), or a
function payload whose output at the sampled point equals itself. -/
theorem C6_amended_thm :
    (∀ (i : ℕ) (s : Scalar), pyEqScalar s s = true →
      Identity.beq i (TopShelf.map (Identity.mk (.scalar s)) identity)
        (Identity.mk (.scalar s)) = true)
  ∧ (∀ (i : ℕ) (h : Scalar → Scalar),
      pyEqScalar (h (.int (i : ℤ))) (h (.int (i : ℤ))) = true →
      Identity.beq i (TopShelf.map (Identity.mk (.fn h)) identity)
        (Identity.mk (.fn h)) = true) :=
  ⟨fun i s hs => hs, fun i h hh => hh⟩

/-- Witness for the amended C6 at the concrete container `Identity(5)` and
sample `0`: mapping `identity` yields a container equal to the original. -/
theorem C6_amended_witness :
    Identity.beq 0 (TopShelf.map (Identity.mk (.scalar (.int 5))) identity)
      (Identity.mk (.scalar (.int 5))) = true :=
  C6_amended_thm.1 0 (.int 5) (by decide)

/-- Claim C7 counterexample: the applicative homomorphism law fails for the
deterministic function constantly returning the float NaN:
`apply(unit(f), unit(0)) == unit(f(0))` evaluates to `False`, because both
sides wrap NaN and Python's `nan == nan` is `False`. -/
theorem C7_counterexample :
    (TopShelf.apply (Identity.unit (.fn (fun _ => Scalar.real .nan)))
        (Identity.unit (.scalar (.int 0)))).map
      (fun w => Identity.beq 0 w (Identity.unit (.scalar (Scalar.real .nan))))
      = some false :=
  rfl

/-- Claim C7 (amended): the applicative homomorphism law
`apply(unit(f), unit(a)) == unit(f(a))` holds for every scalar `a` and every
unary function `f` whose result `f(a)` equals itself under Python `==`
(i.e. is not NaN-valued). -/
theorem C7_amended_thm : ∀ (i : ℕ) (f : Scalar → Scalar) (a : Scalar),
    pyEqScalar (f a) (f a) = true →
    (TopShelf.apply (Identity.unit (.fn f)) (Identity.unit (.scalar a))).map
      (fun w => Identity.beq i w (Identity.unit (.scalar (f a)))) = some true :=
  fun i f a hf => congrArg some hf

/-- Witness for the amended C7 at `f = identity`, `a = 1`, sample `0`. -/
theorem C7_amended_witness :
    (TopShelf.apply (Identity.unit (.fn identity)) (Identity.unit (.scalar (.int 1)))).map
      (fun w => Identity.beq 0 w (Identity.unit (.scalar (identity (.int 1)))))
      = some true :=
  C7_amended_thm 0 identity (.int 1) (by decide)

/-- Claim C8: whenever the first container's payload is a unary function,
`apply(u, v)` returns exactly `map(v, u.value)` — `apply` is definitionally a
refinement of `map`. -/
theorem C8_thm : ∀ (u v : Identity) (h : Scalar → Scalar),
    u.value = Value.fn h → TopShelf.apply u v = some (TopShelf.map v h) :=
  fun u v h hu => by
    obtain ⟨uv⟩ := u
    cases uv with
    | scalar s => simp [Identity.value] at hu
    | wrapped m => simp [Identity.value] at hu
    | fn g =>
      have h2 : Value.fn g = Value.fn h := hu
      injection h2 with h3
      subst h3
      rfl

/-- Witness for C8 at the function-payload container `Identity(identity)`
applied to `Identity(0)`. -/
theorem C8_witness :
    TopShelf.apply (Identity.mk (Value.fn identity)) (Identity.mk (Value.scalar (.int 0)))
      = some (TopShelf.map (Identity.mk (Value.scalar (.int 0))) identity) :=
  C8_thm (Identity.mk (Value.fn identity)) (Identity.mk (Value.scalar (.int 0))) identity rfl

/-- Claim C9: the module-level free function `unit` always runs the
constructor, so handed an existing `Identity` it produces a genuinely
double-wrapped container (never the argument back); only the classmethod
`Identity.unit` performs the no-double-wrap check and returns the instance
unchanged. -/
theorem C9_thm : ∀ m : Identity,
    TopShelf.unit (Value.wrapped m) = Identity.mk (Value.wrapped m)
  ∧ Identity.mk (Value.wrapped m) ≠ m
  ∧ Identity.unit (Value.wrapped m) = m :=
  fun m => ⟨rfl, by
    intro hEq
    have h := congrArg Identity.unwrapDepth hEq
    simp only [Identity.unwrapDepth] at h
    omega, rfl⟩

/-- Claim C10: when exactly one payload is callable and the other is a
scalar, `==` performs no sampling (the result does not depend on the drawn
integer) and raises no error: it falls through to standard equality between
the function object and the scalar, which is `False`. -/
theorem C10_thm : ∀ (i j : ℕ) (h : Scalar → Scalar) (s : Scalar),
    Identity.beq i (Identity.mk (.fn h)) (Identity.mk (.scalar s)) = false
  ∧ Identity.beq i (Identity.mk (.scalar s)) (Identity.mk (.fn h)) = false
  ∧ Identity.beq i (Identity.mk (.fn h)) (Identity.mk (.scalar s)) =
      Identity.beq j (Identity.mk (.fn h)) (Identity.mk (.scalar s)) :=
  fun i j h s => ⟨rfl, rfl, rfl⟩

end TopShelf
